import Mathlib

/-!
Verification of the mission feasibility evaluation engine of SpaceRockets.c
(an interactive mission-planning calculator).

Modelling conventions:
- C doubles are modelled as real numbers; double-to-integer casts are modelled
  by truncation toward zero.
- C ints and time_t are modelled as unbounded integers.
- C strings are modelled as lists of characters (no NUL handling is needed:
  all strings involved are short and NUL-free).
- mktime is modelled for the UTC timezone with a proleptic Gregorian calendar
  (the days-from-civil algorithm), including the normalization of out-of-range
  month and day fields that the C library performs.
- strstr(hay, needle) tests are modelled by list containment of the needle in
  the haystack.
-/

namespace SpaceRockets

/-! ## Data model (SpaceRockets.c lines 44-70) -/

structure Rocket where
  name : List Char
  wet_mass_kg : ℝ
  dry_mass_kg : ℝ
  isp_avg : ℝ
  payload_leo_kg : ℝ
  staging_factor : ℝ
  refuel_dv_per_tanker : ℝ

structure Body where
  name : List Char
  dv_transfer : ℝ
  dv_capture : ℝ
  synodic_days : ℝ
  epoch_date : List Char
  typical_transit_days : ℝ

/-- Result record of one run of the planner: the numeric outputs computed by
run_mission (strategy code, base capability, total requirement, tanker count,
final capability, final margin, success flag).  Strategy codes follow the C
source: 0=direct, 1=oberth, 2=gravity-assist, 3=refuel, 4=kick-stage,
-1=impossible. -/
structure MissionResult where
  strategy : ℤ
  cap : ℝ
  total_req : ℝ
  tankers_needed : ℤ
  final_cap : ℝ
  final_margin : ℝ
  success : Prop

/-- Standard gravity constant G0 (line 29). -/
def G0 : ℝ := 9.80665

/-- EARTH_ASCENT_COST constant (line 30). -/
def EARTH_ASCENT_COST : ℝ := 9.30

/-- Apostrophe character, used in the catalog rocket names. -/
def apos : Char := Char.ofNat 39

/-! ## Catalog (lines 73-84) -/

def starship : Rocket :=
  ⟨"SpaceX".toList ++ apos :: "s Starship".toList,
   5000000, 200000, 350, 150000, 1.4, 5.5⟩

def sls : Rocket :=
  ⟨"NASA".toList ++ apos :: "s SLS".toList,
   2600000, 110000, 400, 95000, 1.5, 0⟩

def new_glenn : Rocket :=
  ⟨"Blue Origin".toList ++ apos :: "s New Glenn".toList,
   1700000, 100000, 340, 45000, 1.4, 0⟩

def mangalyaan : Rocket :=
  ⟨"ISRO".toList ++ apos :: "s Mangalyaan 1 (PSLV)".toList,
   320000, 42000, 275, 1750, 1.2, 0⟩

def moon : Body := ⟨"Moon".toList, 3.12, 2.80, 29.5, "2025-01-13".toList, 3⟩

def mars : Body := ⟨"Mars".toList, 3.80, 2.10, 780, "2025-01-16".toList, 210⟩

def titan : Body :=
  ⟨"Titan (Saturn)".toList, 7.30, 3.00, 378.1, "2025-09-21".toList, 1000⟩

def rockets : List Rocket := [starship, sls, new_glenn, mangalyaan]

def bodies : List Body := [moon, mars, titan]

/-- Hypothetical rocket used to exercise the Oberth special case: its name
holds the "PSLV" keyword and its mass ratio is large enough for a
non-negative base margin at Mars. -/
def pslv_test : Rocket := ⟨"PSLV".toList, 5000000, 50000, 350, 150000, 1.4, 0⟩

/-- Hypothetical rocket used to exercise the infeasible branch: payload
capacity 1 kg, so any heavier payload gives capability 0. -/
def test_rocket : Rocket := ⟨['X'], 2, 1, 100, 1, 1, 0⟩

/-- Hypothetical rocket with a zero specific impulse: dry mass below wet
mass, yet its capability is 0 for every payload. -/
def zero_isp_rocket : Rocket := ⟨['Z'], 2, 1, 0, 10, 1, 0⟩

/-! ## CapabilityCalculator (calc_capability, lines 121-130) -/

/-- calc_capability (lines 121-130): rocket-equation delta-v capability for a
given payload, in km/s, scaled by the staging factor.  Payloads above the
practical LEO payload, and degenerate mass configurations, give 0. -/
noncomputable def calc_capability (r : Rocket) (payload : ℝ) : ℝ :=
  if payload > r.payload_leo_kg then 0
  else if r.dry_mass_kg + payload ≤ 0 ∨
          r.wet_mass_kg + payload ≤ r.dry_mass_kg + payload then 0
  else
    r.isp_avg * G0 *
      Real.log ((r.wet_mass_kg + payload) / (r.dry_mass_kg + payload)) / 1000 *
      r.staging_factor

/-! ## TankerPlanner (compute_tanker_plan, lines 191-201) -/

/-- compute_tanker_plan (lines 191-201): number of tanker refuel missions
needed to cover a delta-v shortage.  Returns 0 when the rocket cannot be
refueled (refuel_dv_per_tanker &le; 0) or there is no shortage. -/
noncomputable def compute_tanker_plan (r : Rocket) (shortage : ℝ) : ℤ :=
  if r.refuel_dv_per_tanker ≤ 0 ∨ shortage ≤ 0 then 0
  else ⌈shortage / r.refuel_dv_per_tanker⌉

/-! ## FeasibilityPlanner (run_mission, lines 274-353) -/

/-- strstr(body.name, "Titan") test of line 296 (and 415). -/
def hasTitan (b : Body) : Prop := "Titan".toList <:+: b.name

/-- strstr(rocket.name, "Starship") test of line 302. -/
def hasStarship (r : Rocket) : Prop := "Starship".toList <:+: r.name

/-- strstr(rocket.name, "PSLV") test of line 320. -/
def hasPSLV (r : Rocket) : Prop := "PSLV".toList <:+: r.name

/-- strstr(body.name, "Mars") test of line 320. -/
def hasMars (b : Body) : Prop := "Mars".toList <:+: b.name

instance (b : Body) : Decidable (hasTitan b) :=
  inferInstanceAs (Decidable ("Titan".toList <:+: b.name))

instance (r : Rocket) : Decidable (hasStarship r) :=
  inferInstanceAs (Decidable ("Starship".toList <:+: r.name))

instance (r : Rocket) : Decidable (hasPSLV r) :=
  inferInstanceAs (Decidable ("PSLV".toList <:+: r.name))

instance (b : Body) : Decidable (hasMars b) :=
  inferInstanceAs (Decidable ("Mars".toList <:+: b.name))

/-- Strategy/bonus selection of run_mission (lines 287-325): given the base
margin, pick the strategy code and the fixed bonus delta-v exactly as the
if-chain in the C source does. -/
noncomputable def strategy_bonus (r : Rocket) (b : Body) (payload margin : ℝ) :
    ℤ × ℝ :=
  if margin < 0 then
    if hasTitan b then (2, 4.5)
    else if hasStarship r then (3, 0)
    else if margin > -1.5 then (4, 2.0)
    else (-1, 0)
  else
    if hasPSLV r ∧ hasMars b ∧ payload ≤ 1500 then (1, 6.5)
    else (0, 0)

/-- total_req of run_mission (lines 278-281): Earth ascent plus transfer plus
capture delta-v. -/
noncomputable def total_required (b : Body) : ℝ :=
  EARTH_ASCENT_COST + b.dv_transfer + b.dv_capture

/-- Refuel branch of run_mission (lines 332-347): pair of (tankers_needed,
final_cap) when the strategy is 3. -/
noncomputable def refuel_plan (r : Rocket) (total_req cap : ℝ) : ℤ × ℝ :=
  if total_req - cap ≤ 0 then (0, cap)
  else
    let t := compute_tanker_plan r (total_req - cap)
    let t2 := if t < 0 then 0 else t
    (t2, cap + (t2 : ℝ) * r.refuel_dv_per_tanker)

/-- Pair of (tankers_needed, final_cap) computed by run_mission
(lines 327-350). -/
noncomputable def mission_tf (r : Rocket) (b : Body) (p : ℝ) : ℤ × ℝ :=
  if (strategy_bonus r b p (calc_capability r p - total_required b)).1 = 3 then
    refuel_plan r (total_required b) (calc_capability r p)
  else
    (0, calc_capability r p +
      (strategy_bonus r b p (calc_capability r p - total_required b)).2)

/-- run_mission (lines 274-353), restricted to its computational core: the
delta-v budget, strategy selection, tanker planning, final capability, final
margin and success flag.  (Printing, file saving and the launch-window table
are handled separately; see launch_windows below for the window table.) -/
noncomputable def run_mission (r : Rocket) (b : Body) (p : ℝ) : MissionResult :=
  { strategy :=
      (strategy_bonus r b p (calc_capability r p - total_required b)).1
    cap := calc_capability r p
    total_req := total_required b
    tankers_needed := (mission_tf r b p).1
    final_cap := (mission_tf r b p).2
    final_margin := (mission_tf r b p).2 - total_required b
    success :=
      (mission_tf r b p).2 - total_required b ≥ 0 ∧
      (strategy_bonus r b p (calc_capability r p - total_required b)).1 ≠ -1 }

/-! ## Date parsing (parse_date, lines 93-106) and mktime model -/

/-- C isspace for the default locale: space, tab, newline, vertical tab,
form feed, carriage return.  Used by the whitespace-skip of the %d
conversions in sscanf. -/
def isCSpace (c : Char) : Bool :=
  c == ' ' || c == '\t' || c == '\n' || c == Char.ofNat 11 ||
    c == Char.ofNat 12 || c == '\r'

/-- Numeric value of a digit string (most significant digit first). -/
def digitsVal (l : List Char) : ℕ :=
  l.foldl (fun acc c => 10 * acc + (c.toNat - 48)) 0

/-- One %d conversion of sscanf: skip whitespace, accept an optional sign,
then one or more decimal digits.  Returns the value and the remaining input,
or none when the conversion fails.  (The C int is modelled as unbounded;
overflow behaviour of %d is undefined in C and does not arise for the
strings the program handles.) -/
def scan_int (l : List Char) : Option (ℤ × List Char) :=
  let l1 := l.dropWhile (fun c => isCSpace c)
  match l1 with
  | [] => none
  | c :: rest =>
    if c = '-' then
      match rest.takeWhile Char.isDigit, rest.dropWhile Char.isDigit with
      | [], _ => none
      | ds, rest2 => some (-(digitsVal ds : ℤ), rest2)
    else if c = '+' then
      match rest.takeWhile Char.isDigit, rest.dropWhile Char.isDigit with
      | [], _ => none
      | ds, rest2 => some ((digitsVal ds : ℤ), rest2)
    else
      match l1.takeWhile Char.isDigit, l1.dropWhile Char.isDigit with
      | [], _ => none
      | ds, rest2 => some ((digitsVal ds : ℤ), rest2)

/-- sscanf(s, "%d-%d-%d", &y, &m, &d) of line 97, succeeding exactly when all
three conversions succeed (i.e. when sscanf returns 3). -/
def sscanf_d3 (l : List Char) : Option (ℤ × ℤ × ℤ) :=
  match scan_int l with
  | none => none
  | some (y, r1) =>
    match r1 with
    | [] => none
    | c :: r2 =>
      if c = '-' then
        match scan_int r2 with
        | none => none
        | some (m, r3) =>
          match r3 with
          | [] => none
          | c2 :: r4 =>
            if c2 = '-' then
              match scan_int r4 with
              | none => none
              | some (d, _) => some (y, m, d)
            else none
      else none

/-- Serial day number (days since 1970-01-01) of a proleptic Gregorian civil
date with month in [1, 12]; the day field may be out of range and acts as an
offset.  This is the standard days-from-civil computation used to model
mktime. -/
def days_from_civil (y m d : ℤ) : ℤ :=
  let y2 := if m ≤ 2 then y - 1 else y
  let era := y2.fdiv 400
  let yoe := y2 - era * 400
  let mp := (m + 9).emod 12
  let doy := (153 * mp + 2).fdiv 5 + d - 1
  let doe := yoe * 365 + yoe.fdiv 4 - yoe.fdiv 100 + doy
  era * 146097 + doe - 719468

/-- mktime of line 105, modelled for UTC, applied to a struct tm holding
year y, month m, day d (1-based month as built by parse_date, before
normalization) and 00:00:00 time: out-of-range months roll into the year,
out-of-range days offset the date, and the result is seconds since the
epoch. -/
def mktime_model (y m d : ℤ) : ℤ :=
  let mz := m - 1
  let yadj := y + mz.fdiv 12
  let madj := mz.emod 12 + 1
  86400 * (days_from_civil yadj madj 1 + (d - 1))

/-- parse_date (lines 93-106): -1 when the string is shorter than 8
characters or the three %d conversions do not all succeed; otherwise the
mktime result for the (normalized) parsed fields. -/
def parse_date (l : List Char) : ℤ :=
  if l.length < 8 then -1
  else
    match sscanf_d3 l with
    | none => -1
    | some (y, m, d) => mktime_model y m d

/-! ## WindowProjector (run_mission lines 396-418) -/

/-- C double-to-integer cast: truncation toward zero. -/
noncomputable def trunc (x : ℝ) : ℤ := if 0 ≤ x then ⌊x⌋ else ⌈x⌉

/-- Cycle count of run_mission lines 400-403: diff = difftime(start, epoch)
clamped to cycle 0 when the start does not lie after the epoch, otherwise
the floor of diff over the cycle duration (the C cast to int of the C floor
of a non-negative double). -/
noncomputable def window_cycles (b : Body) (start_date : List Char) : ℤ :=
  if ((parse_date start_date - parse_date b.epoch_date : ℤ) : ℝ) ≤ 0 then 0
  else ⌊((parse_date start_date - parse_date b.epoch_date : ℤ) : ℝ) /
    (b.synodic_days * 86400)⌋

/-- Transit duration of run_mission lines 413-415: 2555 days for the
gravity-assist strategy (2) to a Titan body, else the body's typical
transit days. -/
noncomputable def window_days (b : Body) (strategy : ℤ) : ℝ :=
  if strategy = 2 ∧ hasTitan b then 2555 else b.typical_transit_days

/-- Launch instant of window i (run_mission line 409): epoch plus the
truncation of (cycles + i) times the cycle duration in seconds. -/
noncomputable def window_launch (b : Body) (start_date : List Char)
    (i : ℕ) : ℤ :=
  parse_date b.epoch_date +
    trunc (((window_cycles b start_date + (i : ℤ) : ℤ) : ℝ) *
      (b.synodic_days * 86400))

/-- Launch-window table of run_mission (lines 396-418): five (launch,
arrival) pairs of epoch instants; the arrival is the launch plus the
truncated transit seconds (line 416). -/
noncomputable def launch_windows (b : Body) (start_date : List Char)
    (strategy : ℤ) : List (ℤ × ℤ) :=
  (List.range 5).map fun i =>
    (window_launch b start_date i,
     window_launch b start_date i + trunc (window_days b strategy * 86400))

/-! ## Spec-side definition of a valid calendar date (for claim C2) -/

/-- Modelled from the spec: number of days of month m of year y in the
Gregorian calendar (the source has no such check; the spec speaks of
"a valid calendar date"). -/
def days_in_month (y m : ℤ) : ℤ :=
  if m = 2 then
    if (y.emod 4 = 0 ∧ y.emod 100 ≠ 0) ∨ y.emod 400 = 0 then 29 else 28
  else if m = 4 ∨ m = 6 ∨ m = 9 ∨ m = 11 then 30
  else 31

/-- Modelled from the spec: a "valid calendar date" in the sense of the
WindowProjector error-handling description of the spec. -/
def valid_civil_date (y m d : ℤ) : Prop :=
  1 ≤ m ∧ m ≤ 12 ∧ 1 ≤ d ∧ d ≤ days_in_month y m

instance (y m d : ℤ) : Decidable (valid_civil_date y m d) :=
  inferInstanceAs (Decidable (_ ∧ _ ∧ _ ∧ _))

/-! ## Numeric helper lemmas -/

lemma exp_le_inv_one_sub {x : ℝ} (h1 : x < 1) : Real.exp x ≤ (1 - x)⁻¹ := by
  have h2 : 0 < 1 - x := by linarith
  have key : Real.exp x * (1 - x) ≤ 1 := by
    have ha := Real.add_one_le_exp (-x)
    calc Real.exp x * (1 - x) ≤ Real.exp x * Real.exp (-x) := by
          nlinarith [(Real.exp_pos x).le]
      _ = 1 := by rw [← Real.exp_add]; simp
  have := (le_div_iff₀ h2).mpr key
  simpa [one_div] using this

lemma seventeen_lt_exp_three : (17 : ℝ) < Real.exp 3 := by
  have h1 : (2.7182818283 : ℝ) ≤ Real.exp 1 := Real.exp_one_gt_d9.le
  calc (17 : ℝ) < 2.7182818283 * 2.7182818283 * 2.7182818283 := by norm_num
    _ ≤ Real.exp 1 * Real.exp 1 * Real.exp 1 := by gcongr
    _ = Real.exp 3 := by rw [← Real.exp_add, ← Real.exp_add]; norm_num

lemma exp_two_oh_two_lt : Real.exp 2.02 < 17 := by
  have h2 : Real.exp 1 < 2.72 := Real.exp_one_lt_d9.trans (by norm_num)
  have h3 : Real.exp 0.02 ≤ (1 - 0.02)⁻¹ := exp_le_inv_one_sub (by norm_num)
  have e : Real.exp 2.02 = Real.exp 1 * Real.exp 1 * Real.exp 0.02 := by
    rw [← Real.exp_add, ← Real.exp_add]; norm_num
  have p1 : Real.exp 1 * Real.exp 1 < 2.72 * 2.72 := by
    nlinarith [Real.exp_pos 1]
  rw [e]
  calc Real.exp 1 * Real.exp 1 * Real.exp 0.02
      ≤ Real.exp 1 * Real.exp 1 * (1 - 0.02)⁻¹ := by
        have : (0:ℝ) ≤ Real.exp 1 * Real.exp 1 := by positivity
        exact mul_le_mul_of_nonneg_left h3 this
    _ < 2.72 * 2.72 * (1 - 0.02)⁻¹ := by
        apply mul_lt_mul_of_pos_right p1 (by norm_num)
    _ < 17 := by norm_num

lemma exp_four_lt : Real.exp 4 < 55 := by
  have h2 : Real.exp 1 < 2.72 := Real.exp_one_lt_d9.trans (by norm_num)
  have p1 : Real.exp 1 * Real.exp 1 < 2.72 * 2.72 := by
    nlinarith [Real.exp_pos 1]
  have e22 : Real.exp 2 = Real.exp 1 * Real.exp 1 := by
    rw [← Real.exp_add]; norm_num
  have e : Real.exp 4 = Real.exp 2 * Real.exp 2 := by
    rw [← Real.exp_add]; norm_num
  rw [e, e22]
  nlinarith [p1, mul_pos (Real.exp_pos 1) (Real.exp_pos 1)]

lemma log_lt_of_lt_exp {x c : ℝ} (hx : 0 < x) (h : x < Real.exp c) :
    Real.log x < c := by
  have := Real.log_lt_log hx h
  rwa [Real.log_exp] at this

lemma lt_log_of_exp_lt {x c : ℝ} (h : Real.exp c < x) : c < Real.log x := by
  have := Real.log_lt_log (Real.exp_pos c) h
  rwa [Real.log_exp] at this

lemma log_seventeen_lt : Real.log 17 < 3 :=
  log_lt_of_lt_exp (by norm_num) seventeen_lt_exp_three

lemma log_seventeen_gt : (2.02 : ℝ) < Real.log 17 :=
  lt_log_of_exp_lt exp_two_oh_two_lt

/-! ## Evaluation helper lemmas for calc_capability -/

lemma calc_capability_overweight {r : Rocket} {p : ℝ}
    (h : p > r.payload_leo_kg) : calc_capability r p = 0 := by
  unfold calc_capability
  rw [if_pos h]

lemma calc_capability_pos_branch {r : Rocket} {p : ℝ}
    (h1 : p ≤ r.payload_leo_kg) (h2 : 0 < r.dry_mass_kg + p)
    (h3 : r.dry_mass_kg + p < r.wet_mass_kg + p) :
    calc_capability r p =
      r.isp_avg * G0 *
        Real.log ((r.wet_mass_kg + p) / (r.dry_mass_kg + p)) / 1000 *
        r.staging_factor := by
  unfold calc_capability
  rw [if_neg (by linarith), if_neg (by push_neg; exact ⟨by linarith, by linarith⟩)]

lemma cap_starship_100000_eq :
    calc_capability starship 100000 =
      350 * 9.80665 * Real.log 17 / 1000 * 1.4 := by
  rw [calc_capability_pos_branch (by norm_num [starship]) (by norm_num [starship])
    (by norm_num [starship])]
  norm_num [starship, G0]

lemma cap_starship_100000_bounds :
    9.7 ≤ calc_capability starship 100000 ∧
      calc_capability starship 100000 ≤ 14.5 := by
  rw [cap_starship_100000_eq]
  constructor
  · nlinarith [log_seventeen_gt]
  · nlinarith [log_seventeen_lt]

/-! ## Evaluation helper lemmas for total_required and strategy_bonus -/

lemma total_required_moon : total_required moon = 15.22 := by
  norm_num [total_required, moon, EARTH_ASCENT_COST]

lemma total_required_mars : total_required mars = 15.2 := by
  norm_num [total_required, mars, EARTH_ASCENT_COST]

lemma total_required_titan : total_required titan = 19.6 := by
  norm_num [total_required, titan, EARTH_ASCENT_COST]

lemma strategy_bonus_grav {r : Rocket} {b : Body} {p m : ℝ}
    (h : m < 0) (ht : hasTitan b) : strategy_bonus r b p m = (2, 4.5) := by
  unfold strategy_bonus
  rw [if_pos h, if_pos ht]

lemma strategy_bonus_refuel {r : Rocket} {b : Body} {p m : ℝ}
    (h : m < 0) (ht : ¬ hasTitan b) (hs : hasStarship r) :
    strategy_bonus r b p m = (3, 0) := by
  unfold strategy_bonus
  rw [if_pos h, if_neg ht, if_pos hs]

lemma strategy_bonus_kick {r : Rocket} {b : Body} {p m : ℝ}
    (h : m < 0) (ht : ¬ hasTitan b) (hs : ¬ hasStarship r)
    (hm : m > -1.5) : strategy_bonus r b p m = (4, 2.0) := by
  unfold strategy_bonus
  rw [if_pos h, if_neg ht, if_neg hs, if_pos hm]

lemma strategy_bonus_infeasible {r : Rocket} {b : Body} {p m : ℝ}
    (h : m < 0) (ht : ¬ hasTitan b) (hs : ¬ hasStarship r)
    (hm : ¬ m > -1.5) : strategy_bonus r b p m = (-1, 0) := by
  unfold strategy_bonus
  rw [if_pos h, if_neg ht, if_neg hs, if_neg hm]

lemma strategy_bonus_oberth {r : Rocket} {b : Body} {p m : ℝ}
    (h : ¬ m < 0) (hc : hasPSLV r ∧ hasMars b ∧ p ≤ 1500) :
    strategy_bonus r b p m = (1, 6.5) := by
  unfold strategy_bonus
  rw [if_neg h, if_pos hc]

lemma strategy_bonus_direct {r : Rocket} {b : Body} {p m : ℝ}
    (h : ¬ m < 0) (hc : ¬ (hasPSLV r ∧ hasMars b ∧ p ≤ 1500)) :
    strategy_bonus r b p m = (0, 0) := by
  unfold strategy_bonus
  rw [if_neg h, if_neg hc]

lemma margin_neg_of_strategy_three {r : Rocket} {b : Body} {p m : ℝ}
    (h : (strategy_bonus r b p m).1 = 3) :
    m < 0 ∧ ¬ hasTitan b ∧ hasStarship r := by
  unfold strategy_bonus at h
  split_ifs at h with h1 h2 h3 h4 h5 <;> simp_all

/-! ## Evaluation of the Starship to Mars mission with payload 100000 kg -/

lemma starship_mars_margin_neg :
    calc_capability starship 100000 - total_required mars < 0 := by
  rw [total_required_mars]
  linarith [cap_starship_100000_bounds.2]

lemma starship_mars_sb :
    strategy_bonus starship mars 100000
      (calc_capability starship 100000 - total_required mars) = (3, 0) :=
  strategy_bonus_refuel starship_mars_margin_neg (by decide) (by decide)

lemma starship_mars_tankers :
    compute_tanker_plan starship
      (total_required mars - calc_capability starship 100000) = 1 := by
  have hb := cap_starship_100000_bounds
  have hper : starship.refuel_dv_per_tanker = 5.5 := by norm_num [starship]
  have hcap1 : calc_capability starship 100000 < 15.2 := by linarith [hb.2]
  unfold compute_tanker_plan
  rw [hper, total_required_mars,
    if_neg (by push_neg; exact ⟨by norm_num, by linarith⟩)]
  rw [Int.ceil_eq_iff]
  constructor
  · push_cast
    rw [lt_div_iff₀ (by norm_num : (0:ℝ) < 5.5)]
    linarith
  · push_cast
    rw [div_le_one (by norm_num : (0:ℝ) < 5.5)]
    linarith [hb.1]

lemma starship_mars_tf :
    mission_tf starship mars 100000 =
      (1, calc_capability starship 100000 + 5.5) := by
  unfold mission_tf
  rw [starship_mars_sb]
  norm_num
  unfold refuel_plan
  rw [if_neg (by linarith [cap_starship_100000_bounds.2, total_required_mars])]
  simp only [starship_mars_tankers]
  norm_num [starship]

/-- C1: the spec expects the catalog Starship to Mars with payload 100000 kg
to have base capability above the 15.2 km/s requirement and strategy Direct;
in fact the base capability is below 14.5 km/s, so the margin is negative and
the planner picks the orbital-refuel strategy (code 3), not Direct (code 0). -/
theorem C1_counterexample :
    (run_mission starship mars 100000).cap <
      (run_mission starship mars 100000).total_req ∧
    (run_mission starship mars 100000).strategy ≠ 0 := by
  constructor
  · show calc_capability starship 100000 < total_required mars
    rw [total_required_mars]
    linarith [cap_starship_100000_bounds.2]
  · show (strategy_bonus starship mars 100000
      (calc_capability starship 100000 - total_required mars)).1 ≠ 0
    rw [starship_mars_sb]
    norm_num

/-- C1 (amended): for the catalog Starship rocket evaluated against the
catalog Mars body with payload 100000 kg, the base capability computed by
calc_capability is BELOW the required 15.2 km/s (margin negative), the
assigned strategy is OrbitalRefuel (code 3) with exactly one tanker, and the
success flag is still true because the tanker covers the shortage. -/
theorem C1_theorem :
    (run_mission starship mars 100000).strategy = 3 ∧
    (run_mission starship mars 100000).cap <
      (run_mission starship mars 100000).total_req ∧
    (run_mission starship mars 100000).tankers_needed = 1 ∧
    (run_mission starship mars 100000).final_margin ≥ 0 ∧
    (run_mission starship mars 100000).success := by
  have hb := cap_starship_100000_bounds
  refine ⟨?_, ?_, ?_, ?_, ?_⟩
  · show (strategy_bonus starship mars 100000
      (calc_capability starship 100000 - total_required mars)).1 = 3
    rw [starship_mars_sb]
  · show calc_capability starship 100000 < total_required mars
    rw [total_required_mars]; linarith [hb.2]
  · show (mission_tf starship mars 100000).1 = 1
    rw [starship_mars_tf]
  · show (mission_tf starship mars 100000).2 - total_required mars ≥ 0
    rw [starship_mars_tf, total_required_mars]
    simp only
    linarith [hb.1]
  · show (mission_tf starship mars 100000).2 - total_required mars ≥ 0 ∧
      (strategy_bonus starship mars 100000
        (calc_capability starship 100000 - total_required mars)).1 ≠ -1
    refine ⟨?_, ?_⟩
    · rw [starship_mars_tf, total_required_mars]
      simp only
      linarith [hb.1]
    · rw [starship_mars_sb]
      norm_num

/-! ## Evaluation of the Mangalyaan (PSLV) to Mars mission with payload 1000 kg -/

lemma cap_mangalyaan_1000_eq :
    calc_capability mangalyaan 1000 =
      275 * 9.80665 * Real.log (321000 / 43000) / 1000 * 1.2 := by
  rw [calc_capability_pos_branch (by norm_num [mangalyaan])
    (by norm_num [mangalyaan]) (by norm_num [mangalyaan])]
  norm_num [mangalyaan, G0]

lemma cap_mangalyaan_1000_le : calc_capability mangalyaan 1000 ≤ 9.8 := by
  rw [cap_mangalyaan_1000_eq]
  have hlog : Real.log (321000 / 43000) < 3 :=
    log_lt_of_lt_exp (by norm_num)
      (lt_trans (by norm_num) seventeen_lt_exp_three)
  nlinarith [hlog, Real.log_pos (by norm_num : (1:ℝ) < 321000 / 43000)]

lemma mangalyaan_mars_sb :
    strategy_bonus mangalyaan mars 1000
      (calc_capability mangalyaan 1000 - total_required mars) = (-1, 0) := by
  have h := cap_mangalyaan_1000_le
  refine strategy_bonus_infeasible ?_ (by decide) (by decide) ?_
  · rw [total_required_mars]; linarith
  · rw [total_required_mars]; push_neg; linarith

/-- C3: the general Oberth special-case rule of the planner does hold (when
the base margin is non-negative and the rocket name holds "PSLV", the body
name holds "Mars" and the payload is at most 1500 kg, the strategy is code 1
with bonus +6.5 km/s applied to the final capability), but the claim's
concrete instance fails: the catalog ISRO rocket against the catalog Mars
body with payload 1000 kg has a base margin far below zero, so the planner
reports Infeasible (-1), not ObertPerigeeKick. -/
theorem C3_counterexample :
    (run_mission mangalyaan mars 1000).strategy = -1 ∧
    (run_mission mangalyaan mars 1000).strategy ≠ 1 ∧
    ¬ (run_mission mangalyaan mars 1000).success := by
  have hs : (run_mission mangalyaan mars 1000).strategy = -1 := by
    show (strategy_bonus mangalyaan mars 1000
      (calc_capability mangalyaan 1000 - total_required mars)).1 = -1
    rw [mangalyaan_mars_sb]
  refine ⟨hs, by rw [hs]; norm_num, ?_⟩
  intro hsucc
  have h2 := hsucc.2
  rw [mangalyaan_mars_sb] at h2
  exact h2 rfl

/-- C3 (amended): whenever the base margin is non-negative and the rocket
name holds "PSLV", the body name holds "Mars" and the payload is at most
1500 kg, the planner assigns strategy ObertPerigeeKick (code 1) and adds the
+6.5 km/s bonus to the final capability.  (The catalog ISRO rocket does not
reach this branch at Mars: its base margin is negative, see the
counterexample.) -/
theorem C3_theorem (r : Rocket) (b : Body) (p : ℝ)
    (h : 0 ≤ calc_capability r p - total_required b)
    (hp : hasPSLV r) (hm : hasMars b) (hpl : p ≤ 1500) :
    (run_mission r b p).strategy = 1 ∧
    (run_mission r b p).final_cap = (run_mission r b p).cap + 6.5 := by
  have hsb := strategy_bonus_oberth (r := r) (b := b) (p := p)
    (m := calc_capability r p - total_required b) (not_lt.mpr h) ⟨hp, hm, hpl⟩
  constructor
  · show (strategy_bonus r b p
      (calc_capability r p - total_required b)).1 = 1
    rw [hsb]
  · show (mission_tf r b p).2 = calc_capability r p + 6.5
    unfold mission_tf
    rw [hsb]
    norm_num

/-- C3 witness: a PSLV-named rocket with a large mass ratio has non-negative
base margin at Mars with payload 1000 kg, and the planner indeed assigns
strategy 1 with the +6.5 bonus. -/
theorem C3_witness :
    hasPSLV pslv_test ∧ hasMars mars ∧ ((1000 : ℝ) ≤ 1500) ∧
    0 ≤ calc_capability pslv_test 1000 - total_required mars ∧
    (run_mission pslv_test mars 1000).strategy = 1 ∧
    (run_mission pslv_test mars 1000).final_cap =
      (run_mission pslv_test mars 1000).cap + 6.5 := by
  have he : calc_capability pslv_test 1000 =
      350 * 9.80665 * Real.log (5001000 / 51000) / 1000 * 1.4 := by
    rw [calc_capability_pos_branch (by norm_num [pslv_test])
      (by norm_num [pslv_test]) (by norm_num [pslv_test])]
    norm_num [pslv_test, G0]
  have hlog : (4 : ℝ) < Real.log (5001000 / 51000) :=
    lt_log_of_exp_lt (lt_trans exp_four_lt (by norm_num))
  have hmargin : 0 ≤ calc_capability pslv_test 1000 - total_required mars := by
    rw [he, total_required_mars]
    nlinarith [hlog]
  have hthm := C3_theorem pslv_test mars 1000 hmargin (by decide) (by decide)
    (by norm_num)
  exact ⟨by decide, by decide, by norm_num, hmargin, hthm.1, hthm.2⟩

/-! ## Evaluation of the Starship to Titan mission with payload 140000 kg -/

lemma cap_starship_140000_le : calc_capability starship 140000 ≤ 14.5 := by
  have he : calc_capability starship 140000 =
      350 * 9.80665 * Real.log (5140000 / 340000) / 1000 * 1.4 := by
    rw [calc_capability_pos_branch (by norm_num [starship])
      (by norm_num [starship]) (by norm_num [starship])]
    norm_num [starship, G0]
  have hlog : Real.log (5140000 / 340000) < 3 :=
    log_lt_of_lt_exp (by norm_num)
      (lt_trans (by norm_num) seventeen_lt_exp_three)
  rw [he]
  nlinarith [hlog, Real.log_pos (by norm_num : (1:ℝ) < 5140000 / 340000)]

/-- C4: when the base margin is negative the strategy branches are tried in
priority order: a Titan body gives GravityAssist (code 2) with bonus +4.5
regardless of the rocket; otherwise a Starship rocket gives OrbitalRefuel
(code 3); otherwise a margin above -1.5 gives KickStage (code 4) with bonus
+2.0; otherwise Infeasible (-1) with no bonus.  In particular the catalog
Starship to Titan with payload 140000 kg gets GravityAssist with bonus
+4.5. -/
theorem C4_theorem (r : Rocket) (b : Body) (p : ℝ)
    (h : calc_capability r p - total_required b < 0) :
    (hasTitan b → (run_mission r b p).strategy = 2 ∧
      (run_mission r b p).final_cap = (run_mission r b p).cap + 4.5) ∧
    (¬ hasTitan b → hasStarship r → (run_mission r b p).strategy = 3) ∧
    (¬ hasTitan b → ¬ hasStarship r →
      calc_capability r p - total_required b > -1.5 →
      (run_mission r b p).strategy = 4 ∧
      (run_mission r b p).final_cap = (run_mission r b p).cap + 2.0) ∧
    (¬ hasTitan b → ¬ hasStarship r →
      ¬ (calc_capability r p - total_required b > -1.5) →
      (run_mission r b p).strategy = -1 ∧
      (run_mission r b p).final_cap = (run_mission r b p).cap) ∧
    ((run_mission starship titan 140000).strategy = 2 ∧
      (run_mission starship titan 140000).final_cap =
        (run_mission starship titan 140000).cap + 4.5) := by
  refine ⟨?_, ?_, ?_, ?_, ?_⟩
  · intro ht
    have hsb := strategy_bonus_grav (r := r) (p := p) h ht
    constructor
    · show (strategy_bonus r b p
        (calc_capability r p - total_required b)).1 = 2
      rw [hsb]
    · show (mission_tf r b p).2 = calc_capability r p + 4.5
      unfold mission_tf
      rw [hsb]
      norm_num
  · intro ht hs
    have hsb := strategy_bonus_refuel (b := b) (p := p) h ht hs
    show (strategy_bonus r b p
      (calc_capability r p - total_required b)).1 = 3
    rw [hsb]
  · intro ht hs hm
    have hsb := strategy_bonus_kick (p := p) h ht hs hm
    constructor
    · show (strategy_bonus r b p
        (calc_capability r p - total_required b)).1 = 4
      rw [hsb]
    · show (mission_tf r b p).2 = calc_capability r p + 2.0
      unfold mission_tf
      rw [hsb]
      norm_num
  · intro ht hs hm
    have hsb := strategy_bonus_infeasible (p := p) h ht hs hm
    constructor
    · show (strategy_bonus r b p
        (calc_capability r p - total_required b)).1 = -1
      rw [hsb]
    · show (mission_tf r b p).2 = calc_capability r p
      unfold mission_tf
      rw [hsb]
      norm_num
  · have hm : calc_capability starship 140000 - total_required titan < 0 := by
      rw [total_required_titan]
      linarith [cap_starship_140000_le]
    have hsb := strategy_bonus_grav (r := starship) (b := titan)
      (p := (140000:ℝ)) hm (by decide)
    constructor
    · show (strategy_bonus starship titan 140000
        (calc_capability starship 140000 - total_required titan)).1 = 2
      rw [hsb]
    · show (mission_tf starship titan 140000).2 =
        calc_capability starship 140000 + 4.5
      unfold mission_tf
      rw [hsb]
      norm_num

/-- C4 witness: a rocket whose 5 kg payload exceeds its 1 kg capacity has
capability 0 at the Moon, hence a margin below -1.5, no Titan body and no
Starship name, so the priority order ends at Infeasible (-1). -/
theorem C4_witness :
    calc_capability test_rocket 5 - total_required moon < 0 ∧
    ¬ hasTitan moon ∧ ¬ hasStarship test_rocket ∧
    (run_mission test_rocket moon 5).strategy = -1 := by
  have hcap : calc_capability test_rocket 5 = 0 :=
    calc_capability_overweight (by norm_num [test_rocket])
  have hm : calc_capability test_rocket 5 - total_required moon < 0 := by
    rw [hcap, total_required_moon]; norm_num
  refine ⟨hm, by decide, by decide, ?_⟩
  exact ((C4_theorem test_rocket moon 5 hm).2.2.2.1 (by decide) (by decide)
    (by rw [hcap, total_required_moon]; norm_num)).1

/-! ## C10: the refuel strategy always covers the shortage -/

/-- C10: whenever the planner selects OrbitalRefuel (strategy 3) for a
rocket with a positive refuel delta-v per tanker, the tanker count covers
the shortage, so the final margin is non-negative and the mission is
reported successful. -/
theorem C10_theorem (r : Rocket) (b : Body) (p : ℝ)
    (hstrat : (run_mission r b p).strategy = 3)
    (hper : 0 < r.refuel_dv_per_tanker) :
    (run_mission r b p).final_margin ≥ 0 ∧ (run_mission r b p).success := by
  have h3 : (strategy_bonus r b p
      (calc_capability r p - total_required b)).1 = 3 := hstrat
  obtain ⟨hm, _, _⟩ := margin_neg_of_strategy_three h3
  have hshort : 0 < total_required b - calc_capability r p := by linarith
  have hplan : compute_tanker_plan r
      (total_required b - calc_capability r p) =
      ⌈(total_required b - calc_capability r p) / r.refuel_dv_per_tanker⌉ := by
    unfold compute_tanker_plan
    rw [if_neg (by push_neg; exact ⟨hper, hshort⟩)]
  have hceil : 0 < ⌈(total_required b - calc_capability r p) /
      r.refuel_dv_per_tanker⌉ :=
    Int.ceil_pos.mpr (by positivity)
  have hrp : refuel_plan r (total_required b) (calc_capability r p) =
      (⌈(total_required b - calc_capability r p) / r.refuel_dv_per_tanker⌉,
       calc_capability r p +
         (⌈(total_required b - calc_capability r p) /
            r.refuel_dv_per_tanker⌉ : ℝ) * r.refuel_dv_per_tanker) := by
    unfold refuel_plan
    rw [if_neg (not_le.mpr hshort)]
    simp only [hplan, if_neg (not_lt.mpr hceil.le)]
  have htf : mission_tf r b p =
      refuel_plan r (total_required b) (calc_capability r p) := by
    unfold mission_tf
    rw [if_pos h3]
  have hcover : (total_required b - calc_capability r p) /
      r.refuel_dv_per_tanker ≤
      (⌈(total_required b - calc_capability r p) /
        r.refuel_dv_per_tanker⌉ : ℝ) := Int.le_ceil _
  rw [div_le_iff₀ hper] at hcover
  have hfm : (mission_tf r b p).2 - total_required b ≥ 0 := by
    rw [htf, hrp]
    simp only
    linarith
  refine ⟨hfm, hfm, ?_⟩
  show (strategy_bonus r b p
    (calc_capability r p - total_required b)).1 ≠ -1
  rw [h3]
  norm_num

/-- C10 witness: the catalog Starship with a 160000 kg payload (above its
150000 kg capacity, so base capability 0) to the catalog Mars body is still
assigned the refuel strategy and reported successful. -/
theorem C10_witness :
    (run_mission starship mars 160000).strategy = 3 ∧
    0 < starship.refuel_dv_per_tanker ∧
    (run_mission starship mars 160000).cap = 0 ∧
    (run_mission starship mars 160000).final_margin ≥ 0 ∧
    (run_mission starship mars 160000).success := by
  have hcap : calc_capability starship 160000 = 0 :=
    calc_capability_overweight (by norm_num [starship])
  have hm : calc_capability starship 160000 - total_required mars < 0 := by
    rw [hcap, total_required_mars]; norm_num
  have hsb := strategy_bonus_refuel (r := starship) (b := mars)
    (p := (160000:ℝ)) hm (by decide) (by decide)
  have hstrat : (run_mission starship mars 160000).strategy = 3 := by
    show (strategy_bonus starship mars 160000
      (calc_capability starship 160000 - total_required mars)).1 = 3
    rw [hsb]
  have hthm := C10_theorem starship mars 160000 hstrat (by norm_num [starship])
  exact ⟨hstrat, by norm_num [starship], hcap, hthm.1, hthm.2⟩

/-! ## C5: margin identity and success flag -/

lemma strategy_bonus_cases (r : Rocket) (b : Body) (p m : ℝ) :
    strategy_bonus r b p m = (2, 4.5) ∨ strategy_bonus r b p m = (3, 0) ∨
    strategy_bonus r b p m = (4, 2.0) ∨ strategy_bonus r b p m = (-1, 0) ∨
    strategy_bonus r b p m = (1, 6.5) ∨ strategy_bonus r b p m = (0, 0) := by
  unfold strategy_bonus
  split_ifs <;> simp

lemma sb_snd_eq (r : Rocket) (b : Body) (p m : ℝ) :
    (strategy_bonus r b p m).2 =
      if (strategy_bonus r b p m).1 = 2 then 4.5
      else if (strategy_bonus r b p m).1 = 4 then 2.0
      else if (strategy_bonus r b p m).1 = 1 then 6.5
      else 0 := by
  rcases strategy_bonus_cases r b p m with h | h | h | h | h | h <;>
    rw [h] <;> norm_num

/-- C5: for every rocket, body and payload, the final margin equals the
final capability minus the total requirement exactly; the success flag is
precisely (final margin non-negative and strategy not Infeasible); and the
final capability is the base capability plus tankers times refuel delta-v
for the refuel strategy, respectively plus the branch bonus (4.5, 2.0, 6.5,
or 0) for the other strategies. -/
theorem C5_theorem (r : Rocket) (b : Body) (p : ℝ) :
    (run_mission r b p).final_margin =
      (run_mission r b p).final_cap - (run_mission r b p).total_req ∧
    ((run_mission r b p).success ↔
      ((run_mission r b p).final_margin ≥ 0 ∧
        (run_mission r b p).strategy ≠ -1)) ∧
    ((run_mission r b p).strategy = 3 →
      (run_mission r b p).final_cap = (run_mission r b p).cap +
        ((run_mission r b p).tankers_needed : ℝ) * r.refuel_dv_per_tanker) ∧
    ((run_mission r b p).strategy = 2 →
      (run_mission r b p).final_cap = (run_mission r b p).cap + 4.5) ∧
    ((run_mission r b p).strategy = 4 →
      (run_mission r b p).final_cap = (run_mission r b p).cap + 2.0) ∧
    ((run_mission r b p).strategy = 1 →
      (run_mission r b p).final_cap = (run_mission r b p).cap + 6.5) ∧
    ((run_mission r b p).strategy = 0 ∨ (run_mission r b p).strategy = -1 →
      (run_mission r b p).final_cap = (run_mission r b p).cap) := by
  refine ⟨rfl, Iff.rfl, ?_, ?_, ?_, ?_, ?_⟩
  · intro h3
    have h3' : (strategy_bonus r b p
        (calc_capability r p - total_required b)).1 = 3 := h3
    show (mission_tf r b p).2 = calc_capability r p +
      ((mission_tf r b p).1 : ℝ) * r.refuel_dv_per_tanker
    unfold mission_tf
    rw [if_pos h3']
    unfold refuel_plan
    split_ifs with hle
    · norm_num
    · simp
  · intro h2
    have h2' : (strategy_bonus r b p
        (calc_capability r p - total_required b)).1 = 2 := h2
    show (mission_tf r b p).2 = calc_capability r p + 4.5
    unfold mission_tf
    rw [if_neg (by rw [h2']; norm_num)]
    show calc_capability r p +
      (strategy_bonus r b p (calc_capability r p - total_required b)).2 = _
    rw [sb_snd_eq, if_pos h2']
  · intro h4
    have h4' : (strategy_bonus r b p
        (calc_capability r p - total_required b)).1 = 4 := h4
    show (mission_tf r b p).2 = calc_capability r p + 2.0
    unfold mission_tf
    rw [if_neg (by rw [h4']; norm_num)]
    show calc_capability r p +
      (strategy_bonus r b p (calc_capability r p - total_required b)).2 = _
    rw [sb_snd_eq, if_neg (by rw [h4']; norm_num), if_pos h4']
  · intro h1
    have h1' : (strategy_bonus r b p
        (calc_capability r p - total_required b)).1 = 1 := h1
    show (mission_tf r b p).2 = calc_capability r p + 6.5
    unfold mission_tf
    rw [if_neg (by rw [h1']; norm_num)]
    show calc_capability r p +
      (strategy_bonus r b p (calc_capability r p - total_required b)).2 = _
    rw [sb_snd_eq, if_neg (by rw [h1']; norm_num),
      if_neg (by rw [h1']; norm_num), if_pos h1']
  · intro h0
    have h0' : (strategy_bonus r b p
        (calc_capability r p - total_required b)).1 = 0 ∨
        (strategy_bonus r b p
          (calc_capability r p - total_required b)).1 = -1 := h0
    have hne : (strategy_bonus r b p
        (calc_capability r p - total_required b)).1 ≠ 3 := by
      rcases h0' with h | h <;> rw [h] <;> norm_num
    show (mission_tf r b p).2 = calc_capability r p
    unfold mission_tf
    rw [if_neg hne]
    show calc_capability r p +
      (strategy_bonus r b p (calc_capability r p - total_required b)).2 = _
    rw [sb_snd_eq]
    rcases h0' with h | h <;>
      rw [if_neg (by rw [h]; norm_num), if_neg (by rw [h]; norm_num),
        if_neg (by rw [h]; norm_num)] <;>
      norm_num

/-- C5 witness: the margin identity and the infeasible-branch capability
identity instantiated at a concrete infeasible mission. -/
theorem C5_witness :
    (run_mission test_rocket moon 5).final_margin =
      (run_mission test_rocket moon 5).final_cap -
        (run_mission test_rocket moon 5).total_req ∧
    (run_mission test_rocket moon 5).strategy = -1 ∧
    (run_mission test_rocket moon 5).final_cap =
      (run_mission test_rocket moon 5).cap := by
  have hcap : calc_capability test_rocket 5 = 0 :=
    calc_capability_overweight (by norm_num [test_rocket])
  have hm : calc_capability test_rocket 5 - total_required moon < 0 := by
    rw [hcap, total_required_moon]; norm_num
  have hsb := strategy_bonus_infeasible (r := test_rocket) (b := moon)
    (p := (5:ℝ)) hm (by decide) (by decide)
    (by rw [hcap, total_required_moon]; norm_num)
  have hstrat : (run_mission test_rocket moon 5).strategy = -1 := by
    show (strategy_bonus test_rocket moon 5
      (calc_capability test_rocket 5 - total_required moon)).1 = -1
    rw [hsb]
  exact ⟨(C5_theorem test_rocket moon 5).1, hstrat,
    (C5_theorem test_rocket moon 5).2.2.2.2.2.2 (Or.inr hstrat)⟩

/-! ## C6: the capability formula -/

/-- C6: for every rocket and payload, a payload above the practical LEO
payload gives capability 0; a degenerate mass configuration (final mass at
most 0, or initial mass at most final mass) gives capability 0; otherwise
the capability is isp times 9.80665 times the log mass ratio, divided by
1000 (km/s), times the staging factor. -/
theorem C6_theorem (r : Rocket) (p : ℝ) :
    (p > r.payload_leo_kg → calc_capability r p = 0) ∧
    (p ≤ r.payload_leo_kg →
      (r.dry_mass_kg + p ≤ 0 ∨ r.wet_mass_kg + p ≤ r.dry_mass_kg + p) →
      calc_capability r p = 0) ∧
    (p ≤ r.payload_leo_kg → 0 < r.dry_mass_kg + p →
      r.dry_mass_kg + p < r.wet_mass_kg + p →
      calc_capability r p =
        r.isp_avg * 9.80665 *
          Real.log ((r.wet_mass_kg + p) / (r.dry_mass_kg + p)) / 1000 *
          r.staging_factor) := by
  refine ⟨fun h => calc_capability_overweight h, ?_, ?_⟩
  · intro h1 h2
    unfold calc_capability
    rw [if_neg (not_lt.mpr h1), if_pos h2]
  · intro h1 h2 h3
    rw [calc_capability_pos_branch h1 h2 h3]
    norm_num [G0]

/-- C6 witness: the rocket-equation branch instantiated at the catalog
Starship with payload 100000 kg. -/
theorem C6_witness :
    ((100000:ℝ) ≤ starship.payload_leo_kg) ∧
    (0 < starship.dry_mass_kg + 100000) ∧
    calc_capability starship 100000 =
      starship.isp_avg * 9.80665 *
        Real.log ((starship.wet_mass_kg + 100000) /
          (starship.dry_mass_kg + 100000)) / 1000 *
        starship.staging_factor := by
  refine ⟨by norm_num [starship], by norm_num [starship], ?_⟩
  exact (C6_theorem starship 100000).2.2 (by norm_num [starship])
    (by norm_num [starship]) (by norm_num [starship])

/-! ## C7: positivity and monotonicity of the capability -/

/-- C7: the claim quantifies over every rocket with dry mass below wet mass,
but a rocket with zero specific impulse satisfies that hypothesis and still
has capability exactly 0 (not positive) at a payload within capacity. -/
theorem C7_counterexample :
    zero_isp_rocket.dry_mass_kg < zero_isp_rocket.wet_mass_kg ∧
    ((0:ℝ) ≤ zero_isp_rocket.payload_leo_kg) ∧
    calc_capability zero_isp_rocket 0 = 0 := by
  refine ⟨by norm_num [zero_isp_rocket], by norm_num [zero_isp_rocket], ?_⟩
  rw [calc_capability_pos_branch (by norm_num [zero_isp_rocket])
    (by norm_num [zero_isp_rocket]) (by norm_num [zero_isp_rocket])]
  norm_num [zero_isp_rocket]

/-- C7 (amended): for every rocket with positive dry mass, dry mass below
wet mass, positive specific impulse and positive staging factor, and
payloads 0 &le; p &le; q within the payload capacity, the capability at q is
positive and the capability is monotonically non-increasing from p to q. -/
theorem C7_theorem (r : Rocket) (p q : ℝ)
    (hd : 0 < r.dry_mass_kg) (hw : r.dry_mass_kg < r.wet_mass_kg)
    (hisp : 0 < r.isp_avg) (hst : 0 < r.staging_factor)
    (hp0 : 0 ≤ p) (hpq : p ≤ q) (hq : q ≤ r.payload_leo_kg) :
    0 < calc_capability r q ∧
    calc_capability r q ≤ calc_capability r p := by
  have hdp : 0 < r.dry_mass_kg + p := by linarith
  have hdq : 0 < r.dry_mass_kg + q := by linarith
  have hwp : r.dry_mass_kg + p < r.wet_mass_kg + p := by linarith
  have hwq : r.dry_mass_kg + q < r.wet_mass_kg + q := by linarith
  have hp_le : p ≤ r.payload_leo_kg := le_trans hpq hq
  have hG : (0:ℝ) < G0 := by norm_num [G0]
  rw [calc_capability_pos_branch hp_le hdp hwp,
    calc_capability_pos_branch hq hdq hwq]
  have hratio_q : 1 < (r.wet_mass_kg + q) / (r.dry_mass_kg + q) := by
    rw [lt_div_iff₀ hdq]; linarith
  have hratio_p : 1 < (r.wet_mass_kg + p) / (r.dry_mass_kg + p) := by
    rw [lt_div_iff₀ hdp]; linarith
  have hlogq : 0 < Real.log ((r.wet_mass_kg + q) / (r.dry_mass_kg + q)) :=
    Real.log_pos hratio_q
  constructor
  · apply mul_pos _ hst
    apply div_pos _ (by norm_num : (0:ℝ) < 1000)
    exact mul_pos (mul_pos hisp hG) hlogq
  · have hle : (r.wet_mass_kg + q) / (r.dry_mass_kg + q) ≤
        (r.wet_mass_kg + p) / (r.dry_mass_kg + p) := by
      rw [div_le_div_iff₀ hdq hdp]
      nlinarith [mul_nonneg
        (by linarith : (0:ℝ) ≤ r.wet_mass_kg - r.dry_mass_kg)
        (by linarith : (0:ℝ) ≤ q - p)]
    have hlog_le := Real.log_le_log (by linarith) hle
    have hc : 0 ≤ r.isp_avg * G0 := le_of_lt (mul_pos hisp hG)
    have h1 : r.isp_avg * G0 *
        Real.log ((r.wet_mass_kg + q) / (r.dry_mass_kg + q)) ≤
        r.isp_avg * G0 *
        Real.log ((r.wet_mass_kg + p) / (r.dry_mass_kg + p)) :=
      mul_le_mul_of_nonneg_left hlog_le hc
    apply mul_le_mul_of_nonneg_right _ hst.le
    linarith

/-- C7 witness: the amended monotonicity statement instantiated at a small
concrete rocket and payloads 0 and 1. -/
theorem C7_witness :
    (0 < test_rocket.dry_mass_kg) ∧
    (test_rocket.dry_mass_kg < test_rocket.wet_mass_kg) ∧
    (0 < test_rocket.isp_avg) ∧
    ((1:ℝ) ≤ test_rocket.payload_leo_kg) ∧
    (0 < calc_capability test_rocket 1 ∧
      calc_capability test_rocket 1 ≤ calc_capability test_rocket 0) := by
  refine ⟨by norm_num [test_rocket], by norm_num [test_rocket],
    by norm_num [test_rocket], by norm_num [test_rocket], ?_⟩
  exact C7_theorem test_rocket 0 1 (by norm_num [test_rocket])
    (by norm_num [test_rocket]) (by norm_num [test_rocket])
    (by norm_num [test_rocket]) (by norm_num) (by norm_num)
    (by norm_num [test_rocket])

/-! ## C8: tanker planning -/

/-- C8: the tanker plan returns 0 when the rocket cannot be refueled or
there is no shortage; otherwise it returns the ceiling of shortage divided
by refuel delta-v per tanker, which is never negative.  In particular a
7.0 km/s shortage at 5.5 km/s per tanker needs 2 tankers. -/
theorem C8_theorem :
    (∀ (r : Rocket) (s : ℝ), r.refuel_dv_per_tanker ≤ 0 ∨ s ≤ 0 →
      compute_tanker_plan r s = 0) ∧
    (∀ (r : Rocket) (s : ℝ), 0 < r.refuel_dv_per_tanker → 0 < s →
      compute_tanker_plan r s = ⌈s / r.refuel_dv_per_tanker⌉ ∧
      0 ≤ compute_tanker_plan r s) ∧
    compute_tanker_plan starship 7 = 2 := by
  refine ⟨?_, ?_, ?_⟩
  · intro r s h
    unfold compute_tanker_plan
    rw [if_pos h]
  · intro r s hper hs
    have he : compute_tanker_plan r s = ⌈s / r.refuel_dv_per_tanker⌉ := by
      unfold compute_tanker_plan
      rw [if_neg (by push_neg; exact ⟨hper, hs⟩)]
    refine ⟨he, ?_⟩
    rw [he]
    exact le_of_lt (Int.ceil_pos.mpr (by positivity))
  · have hper : starship.refuel_dv_per_tanker = 5.5 := by norm_num [starship]
    unfold compute_tanker_plan
    rw [hper, if_neg (by push_neg; constructor <;> norm_num)]
    rw [Int.ceil_eq_iff]
    constructor
    · push_cast; norm_num
    · push_cast; norm_num

/-- C8 witness: the positive branch of the tanker plan instantiated at the
catalog Starship with a 7 km/s shortage. -/
theorem C8_witness :
    (0 < starship.refuel_dv_per_tanker) ∧ ((0:ℝ) < 7) ∧
    compute_tanker_plan starship 7 =
      ⌈(7:ℝ) / starship.refuel_dv_per_tanker⌉ ∧
    0 ≤ compute_tanker_plan starship 7 := by
  have h := C8_theorem.2.1 starship 7 (by norm_num [starship]) (by norm_num)
  exact ⟨by norm_num [starship], by norm_num, h.1, h.2⟩

/-! ## C2: date parsing error behaviour -/

lemma parse_date_short {s : List Char} (h : s.length < 8) :
    parse_date s = -1 := by
  unfold parse_date
  rw [if_pos h]

lemma parse_date_none {s : List Char} (h : ¬ s.length < 8)
    (h2 : sscanf_d3 s = none) : parse_date s = -1 := by
  unfold parse_date
  rw [if_neg h, h2]

lemma parse_date_some {s : List Char} {y m d : ℤ} (h : ¬ s.length < 8)
    (h2 : sscanf_d3 s = some (y, m, d)) :
    parse_date s = mktime_model y m d := by
  unfold parse_date
  rw [if_neg h, h2]

lemma mktime_model_ne_neg_one (y m d : ℤ) : mktime_model y m d ≠ -1 := by
  intro h
  simp only [mktime_model] at h
  have hdvd : (86400:ℤ) ∣ -1 := ⟨_, h.symm⟩
  rw [dvd_neg] at hdvd
  have h1 := Int.le_of_dvd one_pos hdvd
  norm_num at h1

/-- C2: the spec says every start-date string that is not a valid calendar
date makes the projection fail with a DateParseError.  In fact the string
"2025-02-30" denotes no valid calendar date, yet parse_date accepts it (the
three numeric conversions succeed and mktime normalizes it to 2025-03-02,
instant 1740873600), and the launch-window table is produced as usual. -/
theorem C2_counterexample :
    ¬ valid_civil_date 2025 2 30 ∧
    sscanf_d3 ("2025-02-30".toList) = some (2025, 2, 30) ∧
    parse_date ("2025-02-30".toList) = 1740873600 ∧
    parse_date ("2025-02-30".toList) ≠ -1 ∧
    (launch_windows mars ("2025-02-30".toList) 0).length = 5 := by
  refine ⟨by decide, by decide, by decide, by decide, ?_⟩
  simp [launch_windows]

/-- C2 (amended): parse_date reports an error (-1) exactly when the string
is shorter than 8 characters or the three %d conversions of the
"%d-%d-%d" pattern do not all succeed; a string matching the pattern is
accepted even when its fields form no valid calendar date (mktime
normalizes them), and run_mission computes its 5 launch windows regardless
of the parse result (no failure path exists). -/
theorem C2_theorem (s : List Char) :
    (parse_date s = -1 ↔ (s.length < 8 ∨ sscanf_d3 s = none)) ∧
    (∀ (b : Body) (st : ℤ), (launch_windows b s st).length = 5) := by
  constructor
  · constructor
    · intro h
      by_cases hl : s.length < 8
      · exact Or.inl hl
      · right
        cases hs : sscanf_d3 s with
        | none => rfl
        | some v =>
          obtain ⟨y, m, d⟩ := v
          rw [parse_date_some hl hs] at h
          exact absurd h (mktime_model_ne_neg_one y m d)
    · intro h
      rcases h with h | h
      · exact parse_date_short h
      · by_cases hl : s.length < 8
        · exact parse_date_short hl
        · exact parse_date_none hl h
  · intro b st
    simp [launch_windows]

/-- C2 witness: the amended parse error rule and window count instantiated
at the one-character string "x". -/
theorem C2_witness :
    parse_date ("x".toList) = -1 ∧
    (launch_windows mars ("x".toList) 0).length = 5 :=
  ⟨(C2_theorem ("x".toList)).1.mpr (Or.inl (by decide)),
   (C2_theorem ("x".toList)).2 mars 0⟩

/-! ## C9: launch-window projection -/

lemma trunc_intCast (k : ℤ) : trunc ((k : ℤ) : ℝ) = k := by
  unfold trunc
  split_ifs with h
  · exact Int.floor_intCast k
  · exact Int.ceil_intCast k

lemma trunc_nonneg {x : ℝ} (h : 0 ≤ x) : 0 ≤ trunc x := by
  unfold trunc
  rw [if_pos h]
  exact Int.floor_nonneg.mpr h

lemma window_launch_eq {b : Body} {n : ℤ} (s : List Char)
    (hn : b.synodic_days * 86400 = (n : ℝ)) (i : ℕ) :
    window_launch b s i =
      parse_date b.epoch_date + (window_cycles b s + (i : ℤ)) * n := by
  unfold window_launch
  rw [hn, show ((window_cycles b s + (i : ℤ) : ℤ) : ℝ) * (n : ℝ) =
    (((window_cycles b s + (i : ℤ)) * n : ℤ) : ℝ) by push_cast; ring]
  rw [trunc_intCast]

lemma window_days_nonneg {b : Body} {st : ℤ}
    (ht : 0 ≤ b.typical_transit_days) : 0 ≤ window_days b st := by
  unfold window_days
  split_ifs
  · norm_num
  · exact ht

/-- C9: for every body whose cycle duration in seconds is a whole number n
of seconds (all three catalog bodies qualify) and whose typical transit
duration is non-negative, and every start-date string and strategy: the
window projection produces exactly 5 windows, consecutive launches are
exactly one synodic cycle (n = synodic days times 86400 seconds) apart,
every arrival is at or after its launch, and when the start instant does
not lie after the body's epoch instant the cycle index clamps to 0 so the
first window's launch equals the epoch instant exactly. -/
theorem C9_theorem (b : Body) (s : List Char) (st : ℤ) (n : ℤ)
    (hn : b.synodic_days * 86400 = (n : ℝ))
    (ht : 0 ≤ b.typical_transit_days) :
    (launch_windows b s st).length = 5 ∧
    (∀ (i : ℕ) (x y : ℤ × ℤ), (launch_windows b s st).get? i = some x →
      (launch_windows b s st).get? (i + 1) = some y → y.1 - x.1 = n) ∧
    (∀ w ∈ launch_windows b s st, w.1 ≤ w.2) ∧
    (parse_date s ≤ parse_date b.epoch_date →
      ∀ w, (launch_windows b s st).get? 0 = some w →
        w.1 = parse_date b.epoch_date) := by
  refine ⟨by simp [launch_windows], ?_, ?_, ?_⟩
  · intro i x y hx hy
    have hi1 : i + 1 < 5 := by
      by_contra hc
      have : 5 ≤ i + 1 := not_lt.mp hc
      rw [launch_windows, List.get?_map, List.get?_eq_none.mpr
        (by simpa using this)] at hy
      simp at hy
    have hi : i < 5 := by omega
    rw [launch_windows, List.get?_map, List.get?_range hi] at hx
    rw [launch_windows, List.get?_map, List.get?_range hi1] at hy
    simp only [Option.map_some'] at hx hy
    have hx1 : x.1 = window_launch b s i := by rw [← Option.some.inj hx]
    have hy1 : y.1 = window_launch b s (i + 1) := by rw [← Option.some.inj hy]
    rw [hx1, hy1, window_launch_eq s hn i, window_launch_eq s hn (i + 1)]
    push_cast
    ring
  · intro w hw
    rw [launch_windows, List.mem_map] at hw
    obtain ⟨i, _, hi⟩ := hw
    rw [← hi]
    simp only
    have : 0 ≤ trunc (window_days b st * 86400) :=
      trunc_nonneg (mul_nonneg (window_days_nonneg ht) (by norm_num))
    omega
  · intro hse w hw
    rw [launch_windows, List.get?_map, List.get?_range (by norm_num)] at hw
    simp only [Option.map_some'] at hw
    have hw1 : w.1 = window_launch b s 0 := by rw [← Option.some.inj hw]
    have hcyc : window_cycles b s = 0 := by
      unfold window_cycles
      rw [if_pos]
      exact Int.cast_nonpos.mpr (sub_nonpos.mpr hse)
    rw [hw1, window_launch_eq s hn 0, hcyc]
    push_cast
    ring

/-- C9 witness: the window properties instantiated at the catalog Mars body
(synodic period 780 days, a whole 67392000 seconds) with start date
2025-01-01, which precedes the Mars epoch 2025-01-16, so the first window's
launch is the epoch instant. -/
theorem C9_witness :
    (mars.synodic_days * 86400 = ((67392000 : ℤ) : ℝ)) ∧
    ((0:ℝ) ≤ mars.typical_transit_days) ∧
    (parse_date ("2025-01-01".toList) ≤ parse_date mars.epoch_date) ∧
    (launch_windows mars ("2025-01-01".toList) 0).length = 5 ∧
    (∀ w, (launch_windows mars ("2025-01-01".toList) 0).get? 0 = some w →
      w.1 = parse_date mars.epoch_date) := by
  have hn : mars.synodic_days * 86400 = ((67392000 : ℤ) : ℝ) := by
    norm_num [mars]
  have ht : (0:ℝ) ≤ mars.typical_transit_days := by norm_num [mars]
  have hse : parse_date ("2025-01-01".toList) ≤ parse_date mars.epoch_date :=
    by decide
  have h := C9_theorem mars ("2025-01-01".toList) 0 67392000 hn ht
  exact ⟨hn, ht, hse, h.1, h.2.2.2 hse⟩

end SpaceRockets
